import Mathlib

/-!
Verification of the interactive watershed-delineation session workflow
implemented in src/app/app last delineated.py, as a shallow embedding.

The script keeps one mutable record per session (st.session_state) with the
keys last_click, gpkg_path, geojson, streams, snap_point, requested_point,
map_center and map_bounds.  The Delineate handler (lines 31-83) invokes the
external delineation routine, checks that the reported artifact file exists,
and then loads layers from the artifact into the session keys one by one.
The map-rendering part (lines 85-160) reads those keys back.  External
collaborators (the delineation routine, the spatial container reader, the
filesystem) are passed in as function parameters of the embedding.
-/

namespace Delineator

/-- Algebraic model of a Python float as it is inspected by the script: an
exact finite value, the two infinities, and NaN.  Finite arithmetic is exact
rational arithmetic; the script only adds two bounds and halves the sum, so
no rounding behaviour is relevant to the claims. -/
inductive F where
  | fin (q : ℚ)
  | inf
  | ninf
  | nan
deriving DecidableEq

/-- NaN test. -/
def F.isNaN : F → Bool
  | .nan => true
  | _ => false

/-- Finiteness test: true exactly on finite values, false on both infinities
and on NaN. -/
def F.isFinite : F → Bool
  | .fin _ => true
  | _ => false

/-- Python float equality: NaN compares unequal to everything, itself
included; all other values compare by value. -/
def F.pyEq : F → F → Bool
  | .fin a, .fin b => decide (a = b)
  | .inf, .inf => true
  | .ninf, .ninf => true
  | _, _ => false

/-- Float addition on the modelled values (IEEE rules for the special
values: NaN propagates, opposite infinities give NaN, an infinity absorbs
any finite value). -/
def F.add : F → F → F
  | .nan, _ => .nan
  | _, .nan => .nan
  | .inf, .ninf => .nan
  | .ninf, .inf => .nan
  | .inf, _ => .inf
  | _, .inf => .inf
  | .ninf, _ => .ninf
  | _, .ninf => .ninf
  | .fin a, .fin b => .fin (a + b)

/-- Division by two: exact on finite values, fixed on the special values. -/
def F.half : F → F
  | .fin a => .fin (a / 2)
  | x => x

/-- The combined extent of a layer as numpy total_bounds reports it:
[minX, minY, maxX, maxY] (source line 71). -/
structure Bounds where
  minX : F
  minY : F
  maxX : F
  maxY : F
deriving DecidableEq

/-- A successfully read geometry layer: its GeoJSON serialisation (to_json)
and its combined extent (total_bounds). -/
structure Geom where
  json : String
  total_bounds : Bounds
deriving DecidableEq

/-- The viewport the script derives from the primary layer (lines 75-78):
map_center is [center_lat, center_lon]; map_bounds is
[[minY, minX], [maxY, maxX]]. -/
structure Viewport where
  map_center : F × F
  map_bounds : (F × F) × (F × F)
deriving DecidableEq

/-- The validity check of source line 72,
any(map(lambda x: x is None or x != x, bounds)): a numpy float array never
holds None, so the check fires exactly when some entry is NaN, which is the
only value with x != x under Python float equality. -/
def invalidBounds (b : Bounds) : Bool :=
  !(F.pyEq b.minX b.minX) || !(F.pyEq b.minY b.minY) ||
    !(F.pyEq b.maxX b.maxX) || !(F.pyEq b.maxY b.maxY)

/-- Bounding-box computation of source lines 70-80: none when the validity
check fires (the script then only warns), otherwise
center_lat = (bounds[1] + bounds[3]) / 2, center_lon = (bounds[0] + bounds[2]) / 2,
map_bounds = [[bounds[1], bounds[0]], [bounds[3], bounds[2]]]. -/
def computeViewport (b : Bounds) : Option Viewport :=
  if invalidBounds b then
    none
  else
    some { map_center := (F.half (F.add b.minY b.maxY), F.half (F.add b.minX b.maxX)),
           map_bounds := ((b.minY, b.minX), (b.maxY, b.maxX)) }

/-- The opaque spatial container reader at one artifact path: layerNames
models fiona.listlayers (source line 47); read none models the default
(primary) layer read gpd.read_file(path) (line 51); read (some name) models
a named-layer read gpd.read_file(path, layer=name) (lines 56, 61, 66).
Every call may independently fail, as the spec treats the reader as an
opaque external collaborator. -/
structure Container where
  layerNames : Except String (List String)
  read : Option String → Except String Geom

/-- Success test for an Except value. -/
def exceptOk {ε α : Type} : Except ε α → Bool
  | .ok _ => true
  | .error _ => false

/-- Warning text of source line 58. -/
def streamsWarning : String := "Streams layer not found."

/-- Warning text of source line 63. -/
def snapWarning : String := "Snap point layer not found."

/-- Warning text of source line 68. -/
def requestedWarning : String := "Requested point layer not found."

/-- Warning text of source line 73. -/
def invalidBoundsWarning : String := "Watershed has invalid bounds."

/-- One optional-layer read with fallback (each inner try/except of source
lines 55-68): on success the serialised layer, on failure no value and one
warning. -/
def tryOverlay (c : Container) (layer : String) (warning : String) :
    Option String × List String :=
  match c.read (some layer) with
  | .ok g => (some g.json, [])
  | .error _ => (none, [warning])

/-- The values computed inside the try block of source lines 45-83, for a
container the artifact path opens.  The block fails as a whole (outer
except, lines 82-83) exactly when fiona.listlayers or the primary-layer
read raises; each overlay read is individually guarded; the bounding box is
computed from the primary layer and only warns when invalid.  Warnings are
collected in emission order: streams, snap point, requested point, bounds. -/
structure LoadResult where
  geojson : String
  streams : Option String
  snap_point : Option String
  requested_point : Option String
  map_center : Option (F × F)
  map_bounds : Option ((F × F) × (F × F))
  warnings : List String
deriving DecidableEq

/-- The try block of source lines 45-83 as a function of the container. -/
def loadArtifact (c : Container) : Except String LoadResult :=
  match c.layerNames with
  | .error e => .error e
  | .ok _ =>
    match c.read none with
    | .error e => .error e
    | .ok watershed_gdf =>
      let s := tryOverlay c "streams" streamsWarning
      let p := tryOverlay c "snap_point" snapWarning
      let r := tryOverlay c "pour_point" requestedWarning
      let vp := computeViewport watershed_gdf.total_bounds
      .ok { geojson := watershed_gdf.json
            streams := s.1
            snap_point := p.1
            requested_point := r.1
            map_center := Option.map Viewport.map_center vp
            map_bounds := Option.map Viewport.map_bounds vp
            warnings := s.2 ++ p.2 ++ r.2 ++
              (match vp with | none => [invalidBoundsWarning] | some _ => []) }

/-- A map click as st_folium reports it (a lat/lng record). -/
structure Click where
  lat : F
  lng : F
deriving DecidableEq

/-- The per-session mutable record st.session_state, with one field per key
the script uses.  A key the script has not set is modelled as none. -/
structure SessionState where
  last_click : Option Click
  gpkg_path : Option String
  geojson : Option String
  streams : Option String
  snap_point : Option String
  requested_point : Option String
  map_center : Option (F × F)
  map_bounds : Option ((F × F) × (F × F))
deriving DecidableEq

/-- The state of a fresh session: no key set, last_click initialised to
None by source lines 18-19. -/
def emptySession : SessionState :=
  { last_click := none
    gpkg_path := none
    geojson := none
    streams := none
    snap_point := none
    requested_point := none
    map_center := none
    map_bounds := none }

/-- The Reset button (source lines 13-15): st.session_state.clear()
followed by a rerun that re-initialises last_click to None. -/
def clearSession (_st : SessionState) : SessionState := emptySession

/-- A session key written as the source writes it: only when the
corresponding value was produced this run; otherwise the existing entry is
left in place (the source never deletes a key on a failed read). -/
def setIfLoaded {α : Type} (loaded old : Option α) : Option α :=
  match loaded with
  | some v => some v
  | none => old

/-- Outcome of one pass through the Delineate handler. -/
inductive RunOutcome where
  | noRun
  | delineationFailed (msg : String)
  | missingArtifact (path : String)
  | loadFailed (path : String) (msg : String)
  | success (path : String)
deriving DecidableEq

/-- True exactly on a successful run outcome. -/
def RunOutcome.isSuccess : RunOutcome → Bool
  | .success _ => true
  | _ => false

/-- True exactly on a run that passed the artifact-existence check but whose
layer loading then failed fatally. -/
def RunOutcome.isLoadFailed : RunOutcome → Bool
  | .loadFailed _ _ => true
  | _ => false

/-- Source lines 43-83: once the artifact file exists, the script first
stores gpkg_path (line 43) and only then enters the try block; on an outer
exception it merely shows an error, so the session keeps the new gpkg_path
and every other key from before; on success each produced value is stored,
and a key whose layer failed to load keeps its previous entry. -/
def installRun (st : SessionState) (path : String) (c : Container) :
    SessionState × RunOutcome :=
  let st1 := { st with gpkg_path := some path }
  match loadArtifact c with
  | .error e => (st1, .loadFailed path e)
  | .ok r =>
    ({ st1 with
        geojson := some r.geojson
        streams := setIfLoaded r.streams st.streams
        snap_point := setIfLoaded r.snap_point st.snap_point
        requested_point := setIfLoaded r.requested_point st.requested_point
        map_center := setIfLoaded r.map_center st.map_center
        map_bounds := setIfLoaded r.map_bounds st.map_bounds },
      .success path)

/-- The argument tuple the script passes to delineate_point (line 36). -/
structure DelineateCall where
  lat : F
  lng : F
  wid : String
  area : Option F
deriving DecidableEq

/-- The Delineate handler (source lines 31-83) as one state transition.
delineate_point, Path.exists and the container opened at a path are the
external collaborators, passed as functions.  The handler runs only when a
click is stored (the truthiness test of line 31); a delineation failure or
a missing artifact file leaves the session untouched (lines 38-39 only show
an error).  The third component records the arguments delineate_point was
invoked with, if it was invoked. -/
def delineateClick (st : SessionState) (wid : String) (area : Option F)
    (delineate_point : F → F → String → Option F → Except String String)
    (pathExists : String → Bool)
    (containerAt : String → Container) :
    SessionState × RunOutcome × Option DelineateCall :=
  match st.last_click with
  | none => (st, .noRun, none)
  | some click =>
    let call : DelineateCall :=
      { lat := click.lat, lng := click.lng, wid := wid, area := area }
    match delineate_point click.lat click.lng wid area with
    | .error e => (st, .delineationFailed e, some call)
    | .ok gpkg_path =>
      if !(pathExists gpkg_path) then
        (st, .missingArtifact gpkg_path, some call)
      else
        let pr := installRun st gpkg_path (containerAt gpkg_path)
        (pr.1, pr.2, some call)

/-- The click-capture step of source lines 143-144: any truthy reported
click is stored as last_click, overwriting the previous one; nothing else
happens and no validation is performed. -/
def clickCapture (st : SessionState) (last_clicked : Option Click) : SessionState :=
  match last_clicked with
  | some c => { st with last_click := some c }
  | none => st

/-- The sidebar Watershed ID text input (source line 23): its initial value
is "custom"; a user entry, blank included, replaces it completely. -/
def widValue (entry : Option String) : String := entry.getD "custom"

/-- Source line 86: the map location is the stored map_center when present,
else the fixed default [4.6, -74.1]. -/
def defaultLocation : F × F := (F.fin 4.6, F.fin (-74.1))

/-- Source line 86. -/
def mapLocation (st : SessionState) : F × F := st.map_center.getD defaultLocation

/-- Source line 87: folium.Map is always created with zoom_start=9. -/
def mapZoomStart : ℕ := 9

/-- Source lines 147-152: the raw GeoPackage download is offered exactly
when the gpkg_path key is set. -/
def downloadGeoPackageAvailable (st : SessionState) : Bool := st.gpkg_path.isSome

/-- Source lines 154-160: the GeoJSON download is offered exactly when the
geojson key is set. -/
def downloadGeoJSONAvailable (st : SessionState) : Bool := st.geojson.isSome

/-- Modelled from the spec (sections 3 and 4.2), for comparison with the
code only: a coordinate is valid when both components are finite, the
latitude is in [-90, 90] and the longitude is in [-180, 180].  The source
contains no such validation. -/
def specValidCoord (c : Click) : Bool :=
  match c.lat, c.lng with
  | F.fin la, F.fin lo =>
      decide (-90 ≤ la) && decide (la ≤ 90) && decide (-180 ≤ lo) && decide (lo ≤ 180)
  | _, _ => false

/-- A session as left by an earlier successful run: a stored click, an old
artifact path, an old primary layer and an old streams overlay. -/
def priorState : SessionState :=
  { emptySession with
      last_click := some { lat := F.fin 4, lng := F.fin (-74) }
      gpkg_path := some "old.gpkg"
      geojson := some "old-geojson"
      streams := some "old-streams" }

/-- A container whose layer listing succeeds but whose every read fails:
in particular the primary layer is unreadable. -/
def badPrimaryContainer : Container :=
  { layerNames := .ok ["layer"]
    read := fun _ => .error "unreadable" }

/-- The primary watershed layer of the example containers. -/
def watershedGeom : Geom :=
  { json := "watershed-json"
    total_bounds := { minX := F.fin 0, minY := F.fin 1, maxX := F.fin 2, maxY := F.fin 3 } }

/-- A point layer of the example containers. -/
def pointGeom : Geom :=
  { json := "point-json"
    total_bounds := { minX := F.fin 1, minY := F.fin 1, maxX := F.fin 1, maxY := F.fin 1 } }

/-- A container with readable primary, snap_point and pour_point layers but
no streams layer. -/
def noStreamsContainer : Container :=
  { layerNames := .ok ["watershed", "snap_point", "pour_point"]
    read := fun l =>
      match l with
      | none => .ok watershedGeom
      | some "snap_point" => .ok pointGeom
      | some "pour_point" => .ok pointGeom
      | some _ => .error "streams missing" }

/-- A container whose layer listing fails although every layer, the primary
one included, is readable. -/
def listFailContainer : Container :=
  { layerNames := .error "listing failed"
    read := fun l =>
      match l with
      | none => .ok watershedGeom
      | some _ => .ok pointGeom }

/-- Python float inequality of a value with itself holds exactly on NaN. -/
theorem pyEq_self_not (x : F) : (!(F.pyEq x x)) = x.isNaN := by
  cases x <;> simp [F.pyEq, F.isNaN]

/-- The validity check of line 72 fires exactly when some bound is NaN. -/
theorem invalidBounds_eq_nanCheck (b : Bounds) :
    invalidBounds b =
      (b.minX.isNaN || b.minY.isNaN || b.maxX.isNaN || b.maxY.isNaN) := by
  simp only [invalidBounds, pyEq_self_not]

/-- C5 counterexample: an extent with an infinite coordinate is not caught
by the check of line 72 (which only detects NaN), so the code returns a
present viewport with an infinite center longitude, while the claim demands
an absent viewport for every non-finite coordinate. -/
theorem C5_viewport_counterexample :
    F.isFinite F.inf = false ∧
    computeViewport
        { minX := F.inf, minY := F.fin 0, maxX := F.fin 2, maxY := F.fin 3 } =
      some { map_center := (F.fin (3 / 2), F.inf),
             map_bounds := ((F.fin 0, F.inf), (F.fin 3, F.fin 2)) } := by
  refine ⟨rfl, ?_⟩
  simp only [computeViewport, invalidBounds, F.pyEq, F.add, F.half]
  norm_num

/-- C5 amended: the viewport is absent exactly when one of the four extent
values is NaN (infinite values are not caught); otherwise the center is
((minY + maxY) / 2, (minX + maxX) / 2), the south-west corner (minY, minX)
and the north-east corner (maxY, maxX). -/
theorem C5_viewport_amended (b : Bounds) :
    (computeViewport b = none ↔
      (b.minX.isNaN || b.minY.isNaN || b.maxX.isNaN || b.maxY.isNaN) = true) ∧
    ∀ v, computeViewport b = some v →
      v.map_center = (F.half (F.add b.minY b.maxY), F.half (F.add b.minX b.maxX)) ∧
      v.map_bounds = ((b.minY, b.minX), (b.maxY, b.maxX)) := by
  rw [← invalidBounds_eq_nanCheck]
  cases h : invalidBounds b with
  | true =>
    refine ⟨by simp [computeViewport, h], ?_⟩
    intro v hv
    simp [computeViewport, h] at hv
  | false =>
    refine ⟨by simp [computeViewport, h], ?_⟩
    intro v hv
    simp only [computeViewport, h, Bool.false_eq_true, if_false, Option.some_inj] at hv
    subst hv
    exact ⟨rfl, rfl⟩

/-- C6 counterexample: the coordinate (lat 100, lon 200) is out of range for
the validation the spec demands, yet the click-capture step of lines 143-144
stores it as last_click instead of being a no-op. -/
theorem C6_clickValidation_counterexample :
    specValidCoord { lat := F.fin 100, lng := F.fin 200 } = false ∧
    clickCapture emptySession (some { lat := F.fin 100, lng := F.fin 200 }) ≠
      emptySession ∧
    (clickCapture emptySession
        (some { lat := F.fin 100, lng := F.fin 200 })).last_click =
      some { lat := F.fin 100, lng := F.fin 200 } := by
  decide

/-- C6 amended: the click-capture step performs no validation at all; every
reported coordinate, finite or not, in range or not, is stored as last_click
(discarding the prior one and touching no other field), and only an absent
report is a no-op. -/
theorem C6_clickCapture_amended (st : SessionState) (c : Click) :
    clickCapture st (some c) = { st with last_click := some c } ∧
    clickCapture st none = st :=
  ⟨rfl, rfl⟩

/-- C10: a fresh session, and a session just reset, have no stored
map_center, so the map is created at the fixed default location [4.6, -74.1]
with zoom_start 9; once a run has stored map_center, that stored center is
what the map is created at. -/
theorem C10_defaultViewport :
    mapLocation emptySession = (F.fin 4.6, F.fin (-74.1)) ∧
    (∀ st : SessionState, mapLocation (clearSession st) = (F.fin 4.6, F.fin (-74.1))) ∧
    mapZoomStart = 9 ∧
    ∀ (st : SessionState) (c : F × F), st.map_center = some c → mapLocation st = c := by
  refine ⟨rfl, fun st => rfl, rfl, ?_⟩
  intro st c h
  simp [mapLocation, h]

/-- C4: when the delineation routine reports a path whose file does not
exist, the run fails as a missing-artifact failure at that path, the session
state is returned unchanged, and the routine was invoked with exactly the
stored click and the given parameters. -/
theorem C4_missingArtifact (st : SessionState) (click : Click) (wid : String)
    (area : Option F)
    (d : F → F → String → Option F → Except String String)
    (pe : String → Bool) (ca : String → Container) (path : String)
    (hclick : st.last_click = some click)
    (hd : d click.lat click.lng wid area = Except.ok path)
    (hpe : pe path = false) :
    delineateClick st wid area d pe ca =
      (st, RunOutcome.missingArtifact path,
        some { lat := click.lat, lng := click.lng, wid := wid, area := area }) := by
  simp [delineateClick, hclick, hd, hpe]

/-- C4 witness: a concrete run whose artifact file is missing. -/
theorem C4_missingArtifact_witness :
    delineateClick priorState "custom" none
        (fun _ _ _ _ => Except.ok "missing.gpkg") (fun _ => false)
        (fun _ => badPrimaryContainer) =
      (priorState, RunOutcome.missingArtifact "missing.gpkg",
        some { lat := F.fin 4, lng := F.fin (-74), wid := "custom", area := none }) :=
  C4_missingArtifact priorState { lat := F.fin 4, lng := F.fin (-74) } "custom" none
    (fun _ _ _ _ => Except.ok "missing.gpkg") (fun _ => false)
    (fun _ => badPrimaryContainer) "missing.gpkg" rfl rfl rfl

/-- C1 counterexample: a session holding the result of an old run, and a new
run whose artifact file exists but whose primary layer is unreadable.  The
run is a total failure (no RunResult is produced), yet the session is not
left untouched: it now holds the new artifact path next to the old primary
layer, a mixed old/new state. -/
theorem C1_atomicity_counterexample :
    (delineateClick priorState "custom" none
        (fun _ _ _ _ => Except.ok "new.gpkg") (fun _ => true)
        (fun _ => badPrimaryContainer)).2.1 =
      RunOutcome.loadFailed "new.gpkg" "unreadable" ∧
    (delineateClick priorState "custom" none
        (fun _ _ _ _ => Except.ok "new.gpkg") (fun _ => true)
        (fun _ => badPrimaryContainer)).1.gpkg_path = some "new.gpkg" ∧
    (delineateClick priorState "custom" none
        (fun _ _ _ _ => Except.ok "new.gpkg") (fun _ => true)
        (fun _ => badPrimaryContainer)).1.geojson = some "old-geojson" ∧
    (delineateClick priorState "custom" none
        (fun _ _ _ _ => Except.ok "new.gpkg") (fun _ => true)
        (fun _ => badPrimaryContainer)).1 ≠ priorState := by
  decide

/-- C1 amended: the session is left untouched only by a run that fails
before or at the artifact-existence check (no click, delineation failure,
missing artifact file); once the artifact exists, gpkg_path is installed
before layer loading, so a fatal load failure leaves the session equal to
the prior one except for the newly installed gpkg_path. -/
theorem C1_atomicity_amended (st : SessionState) (wid : String) (area : Option F)
    (d : F → F → String → Option F → Except String String)
    (pe : String → Bool) (ca : String → Container) :
    (∀ p m, (delineateClick st wid area d pe ca).2.1 = RunOutcome.loadFailed p m →
      (delineateClick st wid area d pe ca).1 = { st with gpkg_path := some p }) ∧
    (∀ m, (delineateClick st wid area d pe ca).2.1 = RunOutcome.delineationFailed m →
      (delineateClick st wid area d pe ca).1 = st) ∧
    (∀ p, (delineateClick st wid area d pe ca).2.1 = RunOutcome.missingArtifact p →
      (delineateClick st wid area d pe ca).1 = st) ∧
    ((delineateClick st wid area d pe ca).2.1 = RunOutcome.noRun →
      (delineateClick st wid area d pe ca).1 = st) := by
  cases hclick : st.last_click with
  | none => simp [delineateClick, hclick]
  | some click =>
    cases hd : d click.lat click.lng wid area with
    | error e => simp [delineateClick, hclick, hd]
    | ok path =>
      cases hpe : pe path with
      | false => simp [delineateClick, hclick, hd, hpe]
      | true =>
        cases hl : loadArtifact (ca path) with
        | error e =>
          refine ⟨?_, ?_, ?_, ?_⟩ <;>
            simp [delineateClick, hclick, hd, hpe, installRun, hl]
        | ok r =>
          refine ⟨?_, ?_, ?_, ?_⟩ <;>
            simp [delineateClick, hclick, hd, hpe, installRun, hl]

/-- C2 counterexample: a session whose previous run loaded a streams
overlay, and a successful new run whose artifact has no streams layer.  The
claim demands that streams be absent afterwards; instead the stale overlay
of the previous run is still installed. -/
theorem C2_staleOverlay_counterexample :
    (delineateClick priorState "custom" none
        (fun _ _ _ _ => Except.ok "new.gpkg") (fun _ => true)
        (fun _ => noStreamsContainer)).2.1 = RunOutcome.success "new.gpkg" ∧
    (delineateClick priorState "custom" none
        (fun _ _ _ _ => Except.ok "new.gpkg") (fun _ => true)
        (fun _ => noStreamsContainer)).1.streams = some "old-streams" ∧
    (delineateClick priorState "custom" none
        (fun _ _ _ _ => Except.ok "new.gpkg") (fun _ => true)
        (fun _ => noStreamsContainer)).1.streams ≠ none := by
  decide

/-- C2 amended: a successful run whose artifact lacks an overlay layer does
not clear that overlay; the session keeps the value the previous run stored
(stale and fresh layers are merged). -/
theorem C2_staleOverlay_amended (st : SessionState) (path : String)
    (c : Container)
    (hsucc : (installRun st path c).2 = RunOutcome.success path) :
    (exceptOk (c.read (some "streams")) = false →
      (installRun st path c).1.streams = st.streams) ∧
    (exceptOk (c.read (some "snap_point")) = false →
      (installRun st path c).1.snap_point = st.snap_point) ∧
    (exceptOk (c.read (some "pour_point")) = false →
      (installRun st path c).1.requested_point = st.requested_point) := by
  cases hln : c.layerNames with
  | error e => simp [installRun, loadArtifact, hln] at hsucc
  | ok names =>
    cases hn : c.read none with
    | error e => simp [installRun, loadArtifact, hln, hn] at hsucc
    | ok w =>
      refine ⟨?_, ?_, ?_⟩ <;> intro hread
      · cases hs : c.read (some "streams") with
        | error e2 =>
          simp [installRun, loadArtifact, hln, hn, hs, tryOverlay, setIfLoaded]
        | ok g => simp [exceptOk, hs] at hread
      · cases hp : c.read (some "snap_point") with
        | error e2 =>
          simp [installRun, loadArtifact, hln, hn, hp, tryOverlay, setIfLoaded]
        | ok g => simp [exceptOk, hp] at hread
      · cases hr : c.read (some "pour_point") with
        | error e2 =>
          simp [installRun, loadArtifact, hln, hn, hr, tryOverlay, setIfLoaded]
        | ok g => simp [exceptOk, hr] at hread

/-- C2 witness: the concrete stale-streams run of the counterexample setup,
through the amended theorem. -/
theorem C2_staleOverlay_amended_witness :
    (installRun priorState "new.gpkg" noStreamsContainer).1.streams =
      priorState.streams :=
  (C2_staleOverlay_amended priorState "new.gpkg" noStreamsContainer
    (by decide)).1 (by decide)

/-- C3 counterexample: the load is not a function of the primary layer
alone: the debug layer-listing call sits inside the fatal try block before
the primary read, so a container whose listing fails is a fatal load
failure even though its primary layer is readable, against the claimed
equivalence. -/
theorem C3_overlayIndependence_counterexample :
    exceptOk (listFailContainer.read none) = true ∧
    exceptOk (loadArtifact listFailContainer) = false := by
  decide

/-- C3 amended: provided the layer listing succeeds, the load succeeds
exactly when the primary layer is readable, and then each overlay of the
failing set is recorded as absent with exactly one warning per member, in
the fixed order streams, snap point, requested point (the only other
warning, about invalid bounds, is a different string and comes last). -/
theorem C3_overlayIndependence_amended (c : Container)
    (h : exceptOk c.layerNames = true) :
    exceptOk (loadArtifact c) = exceptOk (c.read none) ∧
    ∀ r, loadArtifact c = Except.ok r →
      (r.streams = none ↔ exceptOk (c.read (some "streams")) = false) ∧
      (r.snap_point = none ↔ exceptOk (c.read (some "snap_point")) = false) ∧
      (r.requested_point = none ↔ exceptOk (c.read (some "pour_point")) = false) ∧
      r.warnings.filter
          (fun w => [streamsWarning, snapWarning, requestedWarning].contains w) =
        (if exceptOk (c.read (some "streams")) then [] else [streamsWarning]) ++
        (if exceptOk (c.read (some "snap_point")) then [] else [snapWarning]) ++
        (if exceptOk (c.read (some "pour_point")) then [] else [requestedWarning]) := by
  cases hln : c.layerNames with
  | error e => simp [exceptOk, hln] at h
  | ok names =>
    cases hn : c.read none with
    | error e =>
      have hload : loadArtifact c = Except.error e := by
        simp [loadArtifact, hln, hn]
      refine ⟨by simp [hload, exceptOk], ?_⟩
      intro r hr
      rw [hload] at hr
      simp at hr
    | ok w =>
      constructor
      · simp [loadArtifact, hln, hn, exceptOk]
      · intro r hr
        simp only [loadArtifact, hln, hn, Except.ok.injEq] at hr
        subst hr
        cases hs : c.read (some "streams") <;>
          cases hp : c.read (some "snap_point") <;>
            cases hr2 : c.read (some "pour_point") <;>
              cases hvp : computeViewport w.total_bounds <;>
                simp [tryOverlay, hs, hp, hr2, hvp, exceptOk,
                  streamsWarning, snapWarning, requestedWarning,
                  invalidBoundsWarning]

/-- C3 witness: the container missing only its streams layer, through the
amended theorem. -/
theorem C3_overlayIndependence_amended_witness :
    exceptOk (loadArtifact noStreamsContainer) =
      exceptOk (noStreamsContainer.read none) :=
  (C3_overlayIndependence_amended noStreamsContainer (by decide)).1

/-- C8 counterexample: a blank Watershed ID entry is not replaced by the
sentinel: the run invokes the delineation routine with the empty
identifier. -/
theorem C8_blankId_counterexample :
    widValue (some "") = "" ∧
    (delineateClick priorState (widValue (some "")) none
        (fun _ _ _ _ => Except.ok "new.gpkg") (fun _ => true)
        (fun _ => noStreamsContainer)).2.2 =
      some { lat := F.fin 4, lng := F.fin (-74), wid := "", area := none } := by
  decide

/-- C8 amended: the sentinel "custom" is only the initial value of the text
field; once a click is stored, the run passes the current field content to
the delineation routine unmodified, blank or not. -/
theorem C8_blankId_amended (st : SessionState) (click : Click) (wid : String)
    (area : Option F)
    (d : F → F → String → Option F → Except String String)
    (pe : String → Bool) (ca : String → Container)
    (hclick : st.last_click = some click) :
    (delineateClick st wid area d pe ca).2.2 =
      some { lat := click.lat, lng := click.lng, wid := wid, area := area } ∧
    widValue none = "custom" := by
  refine ⟨?_, rfl⟩
  cases hd : d click.lat click.lng wid area with
  | error e => simp [delineateClick, hclick, hd]
  | ok path =>
    cases hpe : pe path <;> simp [delineateClick, hclick, hd, hpe]

/-- C8 witness: a concrete run with a blank identifier, through the amended
theorem. -/
theorem C8_blankId_amended_witness :
    (delineateClick priorState "" none (fun _ _ _ _ => Except.ok "new.gpkg")
        (fun _ => true) (fun _ => noStreamsContainer)).2.2 =
      some { lat := F.fin 4, lng := F.fin (-74), wid := "", area := none } ∧
    widValue none = "custom" :=
  C8_blankId_amended priorState { lat := F.fin 4, lng := F.fin (-74) } "" none
    (fun _ _ _ _ => Except.ok "new.gpkg") (fun _ => true)
    (fun _ => noStreamsContainer) rfl

/-- C9 counterexample: from a fresh session, a run whose artifact exists but
whose layer loading fails fatally produces no successful run, yet the raw
GeoPackage download is offered afterwards, against the claimed absence
exactly when no successful run exists. -/
theorem C9_export_counterexample :
    (delineateClick
        { emptySession with last_click := some { lat := F.fin 4, lng := F.fin (-74) } }
        "custom" none (fun _ _ _ _ => Except.ok "new.gpkg") (fun _ => true)
        (fun _ => badPrimaryContainer)).2.1.isSuccess = false ∧
    downloadGeoPackageAvailable
      (delineateClick
        { emptySession with last_click := some { lat := F.fin 4, lng := F.fin (-74) } }
        "custom" none (fun _ _ _ _ => Except.ok "new.gpkg") (fun _ => true)
        (fun _ => badPrimaryContainer)).1 = true := by
  decide

/-- C9 amended: from a fresh session, after one pass through the Delineate
handler the raw GeoPackage download is available exactly when the run
reached the artifact-existence check successfully (a successful run or a
fatal load failure), and the GeoJSON download is available exactly when the
run succeeded. -/
theorem C9_export_amended (click : Click) (wid : String) (area : Option F)
    (d : F → F → String → Option F → Except String String)
    (pe : String → Bool) (ca : String → Container) :
    downloadGeoPackageAvailable
        (delineateClick { emptySession with last_click := some click }
          wid area d pe ca).1 =
      ((delineateClick { emptySession with last_click := some click }
          wid area d pe ca).2.1.isSuccess ||
        (delineateClick { emptySession with last_click := some click }
          wid area d pe ca).2.1.isLoadFailed) ∧
    downloadGeoJSONAvailable
        (delineateClick { emptySession with last_click := some click }
          wid area d pe ca).1 =
      (delineateClick { emptySession with last_click := some click }
          wid area d pe ca).2.1.isSuccess := by
  cases hd : d click.lat click.lng wid area with
  | error e =>
    simp [delineateClick, hd, downloadGeoPackageAvailable,
      downloadGeoJSONAvailable, emptySession, RunOutcome.isSuccess,
      RunOutcome.isLoadFailed]
  | ok path =>
    cases hpe : pe path with
    | false =>
      simp [delineateClick, hd, hpe, downloadGeoPackageAvailable,
        downloadGeoJSONAvailable, emptySession, RunOutcome.isSuccess,
        RunOutcome.isLoadFailed]
    | true =>
      cases hl : loadArtifact (ca path) with
      | error e =>
        simp [delineateClick, hd, hpe, installRun, hl, emptySession,
          downloadGeoPackageAvailable, downloadGeoJSONAvailable,
          RunOutcome.isSuccess, RunOutcome.isLoadFailed]
      | ok r =>
        simp [delineateClick, hd, hpe, installRun, hl, emptySession,
          downloadGeoPackageAvailable, downloadGeoJSONAvailable,
          RunOutcome.isSuccess, RunOutcome.isLoadFailed]

end Delineator
